import Mathlib

/-!
Shallow embedding of the GrowthBook back-end authentication middleware
(`src/services/auth.ts`): middleware selection (`getJWTCheck`), the
OpenID connection resolver and caches (`getOpenIdSettings`,
`getOpenIdMiddleware`, `getMetadata`) and the per-request authorization
derivation (`processJWT`).

Modelling conventions:
* JavaScript optional / possibly-undefined values become `Option`.
* JS truthiness on strings: `none` and `some ""` are falsy.
* External collaborators (user store, organization store, SSO connection
  store, role/permission mapping, login validation, OIDC discovery) are
  passed in as function-valued parameters, so theorems quantify over
  every possible collaborator behavior.
* Mutation of `req` becomes explicit state (`ReqState`); the
  `markUserAsVerified` side effect is recorded as a list of written
  user ids; `res.status(s).json({status, message})` becomes the
  `Outcome.response s message` terminal; a thrown error becomes
  `Outcome.thrown`.
* The process-wide caches (`metadataCache`, `ssoMiddlewares`) become
  explicit association-list states threaded through the functions;
  every constructed middleware carries a fresh `buildId` tag so that
  "identical instance (reference equality)" is expressible.
-/

namespace GrowthBookAuth

/-- JS string truthiness for an optional string: `undefined` and `""` are falsy. -/
def strTruthy : Option String → Bool
  | none => false
  | some s => s ≠ ""

/-- Decoded id-token claims (`IdToken` in the source); all fields optional. -/
structure IdToken where
  email : Option String
  email_verified : Option Bool
  given_name : Option String
  sub : Option String
  deriving DecidableEq

/-- The data `getInitialDataFromJWT` extracts (`JWTInfo` in the source);
every field is defaulted so the extracted record is total. -/
structure JWTInfo where
  email : String
  verified : Bool
  name : String
  method : String
  deriving DecidableEq

/-- Application user record (`UserInterface`), restricted to the fields
`processJWT` reads. -/
structure UserInterface where
  id : String
  email : String
  name : String
  verified : Bool
  admin : Bool
  deriving DecidableEq

/-- An organization member entry: `{id, role}`. -/
structure Member where
  id : String
  role : String
  deriving DecidableEq

/-- Organization record, restricted to the fields `processJWT` reads. -/
structure Organization where
  id : String
  members : List Member
  deriving DecidableEq

/-- The request headers `processJWT` / `getOpenIdSettings` consult. -/
structure Headers where
  xOrganization : Option String
  xAuthSourceId : Option String
  deriving DecidableEq

/-- The audit capability installed on the request: either the no-user
closure that always throws, or the closure bound to the resolved user
identity and the current organization id. -/
inductive AuditCap where
  | noUser : AuditCap
  | forUser (userId email name : String) (orgId : Option String) : AuditCap
  deriving DecidableEq

/-- An audit record as assembled by the installed `req.audit` closure:
the caller-supplied partial data enriched with user identity and
organization id (`insertAudit` payload, timestamp elided). -/
structure AuditRecord where
  data : String
  userId : String
  userEmail : String
  userName : String
  orgId : Option String
  deriving DecidableEq

/-- Invoking the installed audit capability: the no-user closure throws
`"No user in request"`; the user-bound closure enriches the event and
writes it through. -/
def runAudit : AuditCap → String → Except String AuditRecord
  | AuditCap.noUser, _ => .error "No user in request"
  | AuditCap.forUser i e n o, d =>
      .ok { data := d, userId := i, userEmail := e, userName := n, orgId := o }

/-- External collaborators of `processJWT`, over an abstract permission-set
type `P` (`getDefaultPermissions` / `getPermissionsByRole` live in the
external `organizations` service). `validateLogin` returns `some msg`
when it throws with message `msg`. -/
structure Collab (P : Type) where
  getUserByEmail : String → Option UserInterface
  getOrganizationById : String → Option Organization
  getDefaultPermissions : P
  getPermissionsByRole : String → P
  getRole : Organization → String → String
  validateLogin : String → Organization → Option String

/-- The mutable request fields `processJWT` populates
(`req.email`, `req.name`, …, `req.permissions`, `req.audit`).
`admin` and `audit` start out unset (`none`), as in the source where
they are only assigned on certain paths. -/
structure ReqState (P : Type) where
  email : String
  name : String
  verified : Bool
  loginMethod : String
  userId : Option String
  admin : Option Bool
  organization : Option Organization
  permissions : P
  audit : Option AuditCap

/-- How the middleware call terminates: pass control to the next handler,
send a `{status, message}` JSON response, or propagate a thrown error. -/
inductive Outcome where
  | next : Outcome
  | response (status : Nat) (message : String) : Outcome
  | thrown (msg : String) : Outcome
  deriving DecidableEq

/-- Full observable result of one `processJWT` call: terminal outcome,
final request state, and the list of user ids passed to
`markUserAsVerified` (the write-through side effect). -/
structure ProcOut (P : Type) where
  outcome : Outcome
  state : ReqState P
  writes : List String

/-- Source `getInitialDataFromJWT`: derive email / verified / name / login method
from the verified token claims. Hosted mode takes the provider tag before
`|` in the subject; self-hosted is always `"local"`. -/
def getInitialDataFromJWT (isCloud : Bool) (user : IdToken) : JWTInfo :=
  let method :=
    if isCloud then
      match user.sub with
      | none => ""
      | some s => (s.splitOn "|").headD ""
    else "local"
  { verified := user.email_verified.getD false
    method := method
    email := user.email.getD ""
    name := user.given_name.getD "" }

/-- Source `getUserFromJWT`: throw if the token has no (truthy) email claim,
otherwise look the user up by email (`null` → `none`). -/
def getUserFromJWT {P : Type} (c : Collab P) (token : IdToken) :
    Except String (Option UserInterface) :=
  if !strTruthy token.email then
    .error "Id token does not contain email address"
  else
    .ok (c.getUserByEmail (token.email.getD ""))

/-- The initial request state `processJWT` installs before user
resolution: claims data plus the default (most restrictive) permission
set; no user id, admin flag, organization or audit capability yet. -/
def initReqState {P : Type} (isCloud : Bool) (c : Collab P) (token : IdToken) :
    ReqState P :=
  let info := getInitialDataFromJWT isCloud token
  { email := info.email
    name := info.name
    verified := info.verified
    loginMethod := info.method
    userId := none
    admin := none
    organization := none
    permissions := c.getDefaultPermissions
    audit := none }

/-- Source `processJWT`: the per-request authorization derivation. Mirrors the
source control flow: claims extraction and default install, user
resolution, the hosted 406 email-verification gate, the write-through
`markUserAsVerified`, organization resolution (404 / membership 403 /
`validateLogin` 403 / role → permissions), and audit-capability
install. -/
def processJWT {P : Type} (isCloud : Bool) (c : Collab P) (token : IdToken)
    (hdrs : Headers) : ProcOut P :=
  let st0 := initReqState isCloud c token
  match getUserFromJWT c token with
  | .error msg => { outcome := .thrown msg, state := st0, writes := [] }
  | .ok none =>
      { outcome := .next
        state := { st0 with audit := some AuditCap.noUser }
        writes := [] }
  | .ok (some user) =>
      let st1 := { st0 with
        email := user.email
        userId := some user.id
        name := user.name
        admin := some user.admin }
      if isCloud && user.verified && !st1.verified then
        { outcome := .response 406
            "You must verify your email address before using GrowthBook"
          state := st1
          writes := [] }
      else
        let writes := if !user.verified && st1.verified then [user.id] else []
        if strTruthy hdrs.xOrganization then
          match c.getOrganizationById (hdrs.xOrganization.getD "") with
          | some org =>
              let st2 := { st1 with organization := some org }
              if !user.admin &&
                  (org.members.filter (fun m => m.id == user.id)).length == 0 then
                { outcome := .response 403
                    "You do not have access to that organization"
                  state := st2
                  writes := writes }
              else
                match c.validateLogin st2.loginMethod org with
                | some emsg =>
                    { outcome := .response 403 emsg, state := st2, writes := writes }
                | none =>
                    let role := if user.admin then "admin" else c.getRole org user.id
                    let st3 := { st2 with permissions := c.getPermissionsByRole role }
                    { outcome := .next
                      state := { st3 with
                        audit := some (AuditCap.forUser user.id user.email user.name
                          (some org.id)) }
                      writes := writes }
          | none =>
              { outcome := .response 404 "Organization not found"
                state := st1
                writes := writes }
        else
          { outcome := .next
            state := { st1 with
              audit := some (AuditCap.forUser user.id user.email user.name none) }
            writes := writes }

/-- OIDC provider metadata (`IssuerMetadata`), restricted to the fields
the middleware constructor reads; all optional in the upstream type. -/
structure IssuerMetadata where
  issuer : Option String
  jwks_uri : Option String
  id_token_signing_alg_values_supported : Option (List String)
  deriving DecidableEq

/-- An SSO connection configuration (`SSOConnectionParams`): the
persisted `SSOConnectionInterface` fields plus optional inline provider
metadata. A missing `authority` is modelled as `""` (JS falsy). -/
structure SSOConnectionParams where
  id : Option String
  organization : Option String
  emailDomain : Option String
  idpType : Option String
  authority : String
  clientId : String
  metadata : Option IssuerMetadata
  deriving DecidableEq

/-- Environment configuration (`util/secrets`): deployment mode, shared
local JWT secret (`""` = unconfigured, JS falsy) and the optional static
self-hosted SSO configuration. -/
structure Config where
  IS_CLOUD : Bool
  JWT_SECRET : String
  SSO_CONFIG : Option SSOConnectionParams

/-- A JSON string literal (connection fields contain no characters that
need escaping). -/
def jstr (s : String) : String := "\"" ++ s ++ "\""

/-- A JSON `"key":value` member. -/
def jsonField (k v : String) : String := jstr k ++ ":" ++ v

/-- A JSON array of strings. -/
def jarr (xs : List String) : String :=
  "[" ++ String.intercalate "," (xs.map jstr) ++ "]"

/-- Model of `JSON.stringify` of provider metadata: present fields in declaration
order, `undefined` fields omitted. -/
def serializeMetadata (m : IssuerMetadata) : String :=
  let fields :=
    (match m.issuer with
      | some v => [jsonField "issuer" (jstr v)] | none => []) ++
    (match m.jwks_uri with
      | some v => [jsonField "jwks_uri" (jstr v)] | none => []) ++
    (match m.id_token_signing_alg_values_supported with
      | some v => [jsonField "id_token_signing_alg_values_supported" (jarr v)]
      | none => [])
  "\x7b" ++ String.intercalate "," fields ++ "\x7d"

/-- Model of `JSON.stringify(ssoConnection)`, the verifier-middleware cache key:
present fields in declaration order, `undefined` fields omitted. -/
def serializeSSO (c : SSOConnectionParams) : String :=
  let fields :=
    (match c.id with
      | some v => [jsonField "id" (jstr v)] | none => []) ++
    (match c.organization with
      | some v => [jsonField "organization" (jstr v)] | none => []) ++
    (match c.emailDomain with
      | some v => [jsonField "emailDomain" (jstr v)] | none => []) ++
    (match c.idpType with
      | some v => [jsonField "idpType" (jstr v)] | none => []) ++
    [jsonField "authority" (jstr c.authority),
     jsonField "clientId" (jstr c.clientId)] ++
    (match c.metadata with
      | some v => [jsonField "metadata" (serializeMetadata v)] | none => [])
  "\x7b" ++ String.intercalate "," fields ++ "\x7d"

/-- The middleware `getJWTCheck` selects: either the dynamic OpenID path
(connection resolution and verifier construction deferred to each
request) or a local `express-jwt` verifier with its static parameters. -/
inductive JWTCheck where
  | openId : JWTCheck
  | localCheck (secret audience issuer : String) (algorithms : List String) : JWTCheck
  deriving DecidableEq

/-- Source `usingOpenId`: cloud always uses SSO; self-hosted does when a static
SSO configuration is present. -/
def usingOpenId (cfg : Config) : Bool :=
  if cfg.IS_CLOUD then true
  else if cfg.SSO_CONFIG.isSome then true
  else false

/-- Source `getLocalJWTCheck`: throws if `JWT_SECRET` is unconfigured, else a
local verifier with fixed audience/issuer and single algorithm HS256. -/
def getLocalJWTCheck (cfg : Config) : Except String JWTCheck :=
  if cfg.JWT_SECRET = "" then
    .error "Must specify JWT_SECRET environment variable"
  else
    .ok (JWTCheck.localCheck cfg.JWT_SECRET "https://api.growthbook.io"
      "https://api.growthbook.io" ["HS256"])

/-- Source `getJWTCheck`: the verification dispatcher. OpenID when hosted or a
static SSO config exists, otherwise the local check (which can fail at
setup time). -/
def getJWTCheck (cfg : Config) : Except String JWTCheck :=
  if usingOpenId cfg then .ok JWTCheck.openId
  else getLocalJWTCheck cfg

/-- State of the process-wide `metadataCache` map, plus a counter of
external `Issuer.discover` calls so that re-discovery is observable. -/
structure MetaState where
  metadataCache : List (String × IssuerMetadata)
  discoveries : Nat
  deriving DecidableEq

/-- Source `getMetadata`: inline metadata is returned directly (no cache
interaction); otherwise the authority is required, the cache is
consulted, and on a miss discovery runs and the result is stored keyed
by authority. `discover` models the external OIDC discovery client
(assumed to succeed; network failure is outside this model). -/
def getMetadata (discover : String → IssuerMetadata)
    (params : SSOConnectionParams) (st : MetaState) :
    Except String (IssuerMetadata × MetaState) :=
  match params.metadata with
  | some m => .ok (m, st)
  | none =>
      let authority := params.authority
      if authority = "" then
        .error "Must have either metadata OR authority for SSO config"
      else
        match st.metadataCache.lookup authority with
        | some existing => .ok (existing, st)
        | none =>
            let metadata := discover authority
            .ok (metadata,
              { metadataCache := (authority, metadata) :: st.metadataCache
                discoveries := st.discoveries + 1 })

/-- A constructed JWKS-backed verifier middleware. `buildId` is a fresh
identity tag per construction, standing in for JS reference identity. -/
structure Middleware where
  buildId : Nat
  jwksUri : String
  cacheRemoteKeys : Bool
  rateLimit : Bool
  jwksRequestsPerMinute : Nat
  audience : String
  issuer : String
  algorithms : List String
  deriving DecidableEq

/-- State of the process-wide `ssoMiddlewares` map, the construction
counter (source of fresh `buildId`s), and the metadata cache state. -/
structure SSOState where
  ssoMiddlewares : List (String × Middleware)
  builds : Nat
  meta : MetaState
  deriving DecidableEq

/-- The Cloud Default SSO connection returned by `getOpenIdSettings`
when hosted and no tenant header is present. -/
def cloudDefaultSSO : SSOConnectionParams :=
  { id := some "gbcloud"
    organization := none
    emailDomain := none
    idpType := none
    authority := "https://growthbook.auth0.com"
    clientId := "5xji4zoOExGgygEFlNXTwAUs3y68zU4D"
    metadata := none }

/-- Source `getOpenIdSettings`: the connection resolver. Self-hosted returns the
static config or `none`; hosted with a (truthy) tenant header looks the
connection up in the external store, logging and returning `none` on a
miss; hosted otherwise returns the fixed default connection. The second
component collects `console.error` log lines. -/
def getOpenIdSettings (cfg : Config)
    (getSSOConnectionById : String → Option SSOConnectionParams)
    (hdrs : Headers) : Option SSOConnectionParams × List String :=
  if !cfg.IS_CLOUD then
    match cfg.SSO_CONFIG with
    | some c => (some c, [])
    | none => (none, [])
  else if strTruthy hdrs.xAuthSourceId then
    let ssoConnectionId := hdrs.xAuthSourceId.getD ""
    match getSSOConnectionById ssoConnectionId with
    | none => (none, ["Could not find SSO connection - " ++ ssoConnectionId])
    | some c => (some c, [])
  else
    (some cloudDefaultSSO, [])

/-- The verifier-construction part of `getOpenIdMiddleware`, given the
resolved connection: compute the cache key, return any cached instance
unchanged, otherwise resolve metadata, fail if jwks URI / algorithms /
issuer are missing, and construct, cache and return a fresh middleware
(audience = connection client id, JWKS key caching and 5-per-minute rate
limit). -/
def buildOpenIdMiddleware (discover : String → IssuerMetadata)
    (ssoConnection : SSOConnectionParams) (st : SSOState) :
    Except String (Middleware × SSOState) :=
  let cacheKey := serializeSSO ssoConnection
  match st.ssoMiddlewares.lookup cacheKey with
  | some existing => .ok (existing, st)
  | none =>
      match getMetadata discover ssoConnection st.meta with
      | .error e => .error e
      | .ok (metadata, meta') =>
          if !strTruthy metadata.jwks_uri ||
              metadata.id_token_signing_alg_values_supported.isNone ||
              !strTruthy metadata.issuer then
            .error
              "Missing SSO metadata: issuer, jwks_uri, and/or id_token_signing_alg_values_supported"
          else
            let middleware : Middleware :=
              { buildId := st.builds
                jwksUri := metadata.jwks_uri.getD ""
                cacheRemoteKeys := true
                rateLimit := true
                jwksRequestsPerMinute := 5
                audience := ssoConnection.clientId
                issuer := metadata.issuer.getD ""
                algorithms := metadata.id_token_signing_alg_values_supported.getD [] }
            .ok (middleware,
              { ssoMiddlewares := (cacheKey, middleware) :: st.ssoMiddlewares
                builds := st.builds + 1
                meta := meta' })

/-- Source `getOpenIdMiddleware`: resolve the connection for the request; a
`none` resolution throws `"Unknown SSO Connection"` (which the
`getOpenIdJWTCheck` wrapper propagates to `next`, failing the request);
otherwise build or fetch the cached verifier. Also returns the log lines
emitted during resolution. -/
def getOpenIdMiddleware (cfg : Config)
    (getSSOConnectionById : String → Option SSOConnectionParams)
    (discover : String → IssuerMetadata) (hdrs : Headers) (st : SSOState) :
    Except String (Middleware × SSOState) × List String :=
  let resolved := getOpenIdSettings cfg getSSOConnectionById hdrs
  match resolved.fst with
  | none => (.error "Unknown SSO Connection", resolved.snd)
  | some c => (buildOpenIdMiddleware discover c st, resolved.snd)

/-! ### Concrete fixtures used by witnesses and counterexamples -/

/-- A token whose email claim is verified. -/
def tokenVerified : IdToken :=
  { email := some "a@x.com", email_verified := some true
    given_name := some "Alice", sub := some "auth0|u1" }

/-- A token whose email claim is not verified. -/
def tokenUnverified : IdToken :=
  { email := some "a@x.com", email_verified := some false
    given_name := some "Alice", sub := some "auth0|u1" }

/-- A stored user that has not verified their email. -/
def userUnverified : UserInterface :=
  { id := "u1", email := "a@x.com", name := "Alice", verified := false, admin := false }

/-- A stored user whose record is verified. -/
def userVerified : UserInterface :=
  { id := "u1", email := "a@x.com", name := "Alice", verified := true, admin := false }

/-- An organization whose member list does not contain user `u1`. -/
def orgExcluding : Organization :=
  { id := "org1", members := [{ id := "u2", role := "collaborator" }] }

/-- Collaborator bundle over `P := Nat` permissions: user store holds `u`
under `"a@x.com"`, organization store is `g`, default permissions `0`,
role permissions `1`. -/
def mkCollab (u : Option UserInterface) (g : String → Option Organization) :
    Collab Nat :=
  { getUserByEmail := fun e => if e = "a@x.com" then u else none
    getOrganizationById := g
    getDefaultPermissions := 0
    getPermissionsByRole := fun _ => 1
    getRole := fun _ _ => "collaborator"
    validateLogin := fun _ _ => none }

/-- Request with no relevant headers. -/
def hdrsNone : Headers := { xOrganization := none, xAuthSourceId := none }

/-- Request selecting organization `org1`. -/
def hdrsOrg1 : Headers := { xOrganization := some "org1", xAuthSourceId := none }

/-- Request selecting a non-existent organization id. -/
def hdrsMissingOrg : Headers := { xOrganization := some "nope", xAuthSourceId := none }

/-! ### C5: verification dispatcher selection -/

/-- C5: `getJWTCheck` selects the dynamic OpenID path exactly when the
deployment is hosted or a static SSO configuration is present; otherwise
it selects local verification with fixed audience/issuer
`https://api.growthbook.io` and single algorithm HS256, and fails at
setup time with the configuration error when `JWT_SECRET` is
unconfigured. -/
theorem c5_dispatcher_selection (cfg : Config) :
    (getJWTCheck cfg = .ok JWTCheck.openId ↔
      (cfg.IS_CLOUD = true ∨ cfg.SSO_CONFIG.isSome = true)) ∧
    (cfg.IS_CLOUD = false → cfg.SSO_CONFIG = none →
      (cfg.JWT_SECRET = "" →
        getJWTCheck cfg = .error "Must specify JWT_SECRET environment variable") ∧
      (cfg.JWT_SECRET ≠ "" →
        getJWTCheck cfg = .ok (JWTCheck.localCheck cfg.JWT_SECRET
          "https://api.growthbook.io" "https://api.growthbook.io" ["HS256"]))) := by
  rcases cfg with ⟨cloud, secret, sso⟩
  cases cloud <;> cases sso <;> by_cases hs : secret = "" <;>
    simp [getJWTCheck, usingOpenId, getLocalJWTCheck, hs]

/-- Witness for C5 at a concrete self-hosted configuration with no SSO
config and no secret: setup fails with the configuration error. -/
theorem c5_dispatcher_selection_witness :
    getJWTCheck { IS_CLOUD := false, JWT_SECRET := "", SSO_CONFIG := none } =
      .error "Must specify JWT_SECRET environment variable" := by
  have h := c5_dispatcher_selection
    { IS_CLOUD := false, JWT_SECRET := "", SSO_CONFIG := none }
  exact (h.2 rfl rfl).1 rfl

/-! ### C8: getMetadata configuration error and inline metadata -/

/-- C8: `getMetadata` fails (necessarily with the configuration error)
exactly when the connection has neither inline metadata nor an
authority; inline metadata is returned directly with the cache state
untouched (neither consulted nor populated). -/
theorem c8_getMetadata_config_error (discover : String → IssuerMetadata)
    (params : SSOConnectionParams) (st : MetaState) :
    ((∃ e, getMetadata discover params st = .error e) ↔
      (params.metadata = none ∧ params.authority = "")) ∧
    (params.metadata = none → params.authority = "" →
      getMetadata discover params st =
        .error "Must have either metadata OR authority for SSO config") ∧
    (∀ m, params.metadata = some m → getMetadata discover params st = .ok (m, st)) := by
  rcases hm : params.metadata with _ | m
  · by_cases ha : params.authority = ""
    · simp [getMetadata, hm, ha]
    · rcases hl : st.metadataCache.lookup params.authority with _ | x <;>
        simp [getMetadata, hm, ha, hl]
  · simp [getMetadata, hm]

/-- Witness for C8 at concrete inputs: a connection with neither inline
metadata nor authority fails with the configuration error, and one with
inline metadata returns it with the cache untouched. -/
theorem c8_getMetadata_config_error_witness :
    getMetadata (fun _ => ⟨none, none, none⟩)
      { id := none, organization := none, emailDomain := none, idpType := none
        authority := "", clientId := "c", metadata := none }
      { metadataCache := [], discoveries := 0 } =
      .error "Must have either metadata OR authority for SSO config" ∧
    getMetadata (fun _ => ⟨none, none, none⟩)
      { id := none, organization := none, emailDomain := none, idpType := none
        authority := "", clientId := "c"
        metadata := some ⟨some "i", some "j", some ["RS256"]⟩ }
      { metadataCache := [], discoveries := 0 } =
      .ok (⟨some "i", some "j", some ["RS256"]⟩,
        { metadataCache := [], discoveries := 0 }) := by
  constructor
  · exact ((c8_getMetadata_config_error (fun _ => ⟨none, none, none⟩)
      { id := none, organization := none, emailDomain := none, idpType := none
        authority := "", clientId := "c", metadata := none }
      { metadataCache := [], discoveries := 0 }).2.1 rfl rfl)
  · exact ((c8_getMetadata_config_error (fun _ => ⟨none, none, none⟩)
      { id := none, organization := none, emailDomain := none, idpType := none
        authority := "", clientId := "c"
        metadata := some ⟨some "i", some "j", some ["RS256"]⟩ }
      { metadataCache := [], discoveries := 0 }).2.2
      ⟨some "i", some "j", some ["RS256"]⟩ rfl)

/-! ### C4: cache idempotence (metadata cache and verifier middleware cache) -/

/-- After a successful discovery-path `getMetadata` call, the resulting
cache state maps the authority to the returned metadata. -/
theorem getMetadata_lookup_after (discover : String → IssuerMetadata)
    (p : SSOConnectionParams) (st : MetaState) (m : IssuerMetadata) (st' : MetaState)
    (hm : p.metadata = none)
    (h : getMetadata discover p st = .ok (m, st')) :
    p.authority ≠ "" ∧ st'.metadataCache.lookup p.authority = some m := by
  by_cases ha : p.authority = ""
  · simp [getMetadata, hm, ha] at h
  · rcases hl : st.metadataCache.lookup p.authority with _ | x
    · simp [getMetadata, hm, ha, hl] at h
      refine ⟨ha, ?_⟩
      rw [← h.2, ← h.1]
      simp [List.lookup]
    · simp [getMetadata, hm, ha, hl] at h
      refine ⟨ha, ?_⟩
      rw [← h.2, hl, h.1]

/-- After a successful `buildOpenIdMiddleware` call, the resulting state
maps the connection's cache key to the returned middleware. -/
theorem buildOpenIdMiddleware_lookup_after (discover : String → IssuerMetadata)
    (c : SSOConnectionParams) (st : SSOState) (mw : Middleware) (st' : SSOState)
    (h : buildOpenIdMiddleware discover c st = .ok (mw, st')) :
    st'.ssoMiddlewares.lookup (serializeSSO c) = some mw := by
  rcases hl : st.ssoMiddlewares.lookup (serializeSSO c) with _ | x
  · rcases hgm : getMetadata discover c st.meta with e | ⟨md, meta'⟩
    · simp [buildOpenIdMiddleware, hl, hgm] at h
    · by_cases hchk : (!strTruthy md.jwks_uri ||
          md.id_token_signing_alg_values_supported.isNone ||
          !strTruthy md.issuer) = true
      · simp [buildOpenIdMiddleware, hl, hgm, hchk] at h
      · simp [buildOpenIdMiddleware, hl, hgm, hchk] at h
        rw [← h.2, ← h.1]
        simp [List.lookup]
  · simp [buildOpenIdMiddleware, hl] at h
    rw [← h.2, hl, h.1]

/-- C4: both process-wide caches are idempotent after population. If a
`getMetadata` call on a discovery-path connection (the case in which a
cached instance exists at all) succeeds, a second call with the same
authority returns the very same metadata and leaves the state untouched
(no re-discovery), even when the upstream discovery function has since
changed. If a `buildOpenIdMiddleware` call succeeds, a second call with
a connection serializing to the same cache key returns the identical
middleware instance (same `buildId`) and leaves the state untouched (no
reconstruction), again regardless of upstream changes. -/
theorem c4_cache_idempotence
    (d1 d2 : String → IssuerMetadata) (p1 p2 : SSOConnectionParams)
    (st : MetaState) (m : IssuerMetadata) (st' : MetaState)
    (c1 c2 : SSOConnectionParams) (sst : SSOState) (mw : Middleware)
    (sst' : SSOState) :
    (p1.metadata = none → p2.metadata = none → p2.authority = p1.authority →
      getMetadata d1 p1 st = .ok (m, st') →
      getMetadata d2 p2 st' = .ok (m, st')) ∧
    (serializeSSO c2 = serializeSSO c1 →
      buildOpenIdMiddleware d1 c1 sst = .ok (mw, sst') →
      buildOpenIdMiddleware d2 c2 sst' = .ok (mw, sst')) := by
  constructor
  · intro hm1 hm2 hauth h1
    obtain ⟨hne, hl⟩ := getMetadata_lookup_after d1 p1 st m st' hm1 h1
    rw [← hauth] at hne hl
    simp [getMetadata, hm2, hne, hl]
  · intro hkey h1
    have hl := buildOpenIdMiddleware_lookup_after d1 c1 sst mw sst' h1
    rw [← hkey] at hl
    simp only [buildOpenIdMiddleware, hl]

/-- Witness for C4 at concrete inputs: populate each cache once, then
call again with a changed discovery function and observe the identical
cached results and unchanged states. -/
theorem c4_cache_idempotence_witness :
    getMetadata (fun _ => ⟨none, none, none⟩) cloudDefaultSSO
      { metadataCache :=
          [("https://growthbook.auth0.com",
            ⟨some "https://growthbook.auth0.com", some "https://g/jwks", some ["RS256"]⟩)]
        discoveries := 1 } =
      .ok (⟨some "https://growthbook.auth0.com", some "https://g/jwks", some ["RS256"]⟩,
        { metadataCache :=
            [("https://growthbook.auth0.com",
              ⟨some "https://growthbook.auth0.com", some "https://g/jwks", some ["RS256"]⟩)]
          discoveries := 1 }) := by
  have h := (c4_cache_idempotence
    (fun _ => ⟨some "https://growthbook.auth0.com", some "https://g/jwks", some ["RS256"]⟩)
    (fun _ => ⟨none, none, none⟩) cloudDefaultSSO cloudDefaultSSO
    { metadataCache := [], discoveries := 0 }
    ⟨some "https://growthbook.auth0.com", some "https://g/jwks", some ["RS256"]⟩
    { metadataCache :=
        [("https://growthbook.auth0.com",
          ⟨some "https://growthbook.auth0.com", some "https://g/jwks", some ["RS256"]⟩)]
      discoveries := 1 }
    cloudDefaultSSO cloudDefaultSSO
    { ssoMiddlewares := [], builds := 0, meta := { metadataCache := [], discoveries := 0 } }
    { buildId := 0, jwksUri := "", cacheRemoteKeys := true, rateLimit := true
      jwksRequestsPerMinute := 5, audience := "", issuer := "", algorithms := [] }
    { ssoMiddlewares := [], builds := 0, meta := { metadataCache := [], discoveries := 0 } }).1
  exact h rfl rfl rfl (by rfl)

/-! ### C2: unmatched tenant-header lookup -/

/-- A hosted configuration with no local secret or static SSO config. -/
def cfgCloud : Config := { IS_CLOUD := true, JWT_SECRET := "", SSO_CONFIG := none }

/-- A discovery function returning complete provider metadata. -/
def discoverGood : String → IssuerMetadata := fun a =>
  { issuer := some a, jwks_uri := some (a ++ "/jwks")
    id_token_signing_alg_values_supported := some ["RS256"] }

/-- The empty initial SSO state (no cached middlewares or metadata). -/
def ssoState0 : SSOState :=
  { ssoMiddlewares := [], builds := 0
    meta := { metadataCache := [], discoveries := 0 } }

/-- C2 (amended): for a hosted request whose tenant header names a
connection id absent from the SSO connection store, the resolver
`getOpenIdSettings` logs the miss and returns `none` without throwing —
but the request does not fall through to the default hosted SSO:
`getOpenIdMiddleware` then throws `"Unknown SSO Connection"`, which the
dispatcher wrapper propagates, failing authentication for that
request. -/
theorem c2_unknown_connection_fails (cfg : Config)
    (store : String → Option SSOConnectionParams)
    (discover : String → IssuerMetadata) (hdrs : Headers) (st : SSOState)
    (cid : String)
    (hcloud : cfg.IS_CLOUD = true)
    (hhdr : hdrs.xAuthSourceId = some cid) (hne : cid ≠ "")
    (hmiss : store cid = none) :
    getOpenIdSettings cfg store hdrs =
      (none, ["Could not find SSO connection - " ++ cid]) ∧
    (getOpenIdMiddleware cfg store discover hdrs st).fst =
      .error "Unknown SSO Connection" := by
  have hset : getOpenIdSettings cfg store hdrs =
      (none, ["Could not find SSO connection - " ++ cid]) := by
    simp [getOpenIdSettings, hcloud, hhdr, strTruthy, hne, hmiss]
  exact ⟨hset, by simp [getOpenIdMiddleware, hset]⟩

/-- Witness for C2 at a concrete hosted request whose tenant header
names the absent connection id `"missing"` against an empty store. -/
theorem c2_unknown_connection_fails_witness :
    getOpenIdSettings cfgCloud (fun _ => none)
      { xOrganization := none, xAuthSourceId := some "missing" } =
      (none, ["Could not find SSO connection - missing"]) ∧
    (getOpenIdMiddleware cfgCloud (fun _ => none) discoverGood
      { xOrganization := none, xAuthSourceId := some "missing" } ssoState0).fst =
      .error "Unknown SSO Connection" :=
  c2_unknown_connection_fails cfgCloud (fun _ => none) discoverGood
    { xOrganization := none, xAuthSourceId := some "missing" } ssoState0
    "missing" rfl rfl (by decide) rfl

/-- Counterexample to C2 as stated: at a concrete hosted request whose
tenant header names a connection id absent from the store, the OpenID
middleware construction results in the thrown error
`"Unknown SSO Connection"` — authentication fails hard; the request does
not fall through to a no-SSO / default hosted SSO path. -/
theorem c2_unknown_connection_cex :
    (getOpenIdMiddleware cfgCloud (fun _ => none) discoverGood
      { xOrganization := none, xAuthSourceId := some "tenant1" } ssoState0).fst =
      .error "Unknown SSO Connection" := by
  simp [getOpenIdMiddleware, getOpenIdSettings, cfgCloud, strTruthy]

/-! ### C1: the hosted 406 email-verification gate -/

/-- C1 (amended): on hosted deployments, when the *stored* user record is
verified but the *token* claims the identity is not verified, `processJWT`
rejects with the 406 verification-required response before any
organization resolution (the final state carries no organization,
regardless of the organization header or store) and performs no
write-through. The direction in the original claim (token verified,
stored unverified) instead takes the write-through path, see the
counterexample. -/
theorem c1_hosted_verification_gate {P : Type} (c : Collab P) (token : IdToken)
    (hdrs : Headers) (user : UserInterface)
    (hu : getUserFromJWT c token = .ok (some user))
    (hstored : user.verified = true)
    (htoken : token.email_verified.getD false = false) :
    (processJWT true c token hdrs).outcome =
      .response 406 "You must verify your email address before using GrowthBook" ∧
    (processJWT true c token hdrs).state.organization = none ∧
    (processJWT true c token hdrs).writes = [] := by
  simp [processJWT, initReqState, getInitialDataFromJWT, hu, hstored, htoken]

/-- Witness for C1 at a concrete hosted request: stored user verified,
token unverified — the 406 response is returned. -/
theorem c1_hosted_verification_gate_witness :
    (processJWT true (mkCollab (some userVerified) (fun _ => none))
        tokenUnverified hdrsOrg1).outcome =
      .response 406 "You must verify your email address before using GrowthBook" ∧
    (processJWT true (mkCollab (some userVerified) (fun _ => none))
        tokenUnverified hdrsOrg1).state.organization = none ∧
    (processJWT true (mkCollab (some userVerified) (fun _ => none))
        tokenUnverified hdrsOrg1).writes = [] :=
  c1_hosted_verification_gate (mkCollab (some userVerified) (fun _ => none))
    tokenUnverified hdrsOrg1 userVerified (by rfl) rfl rfl

/-- Counterexample to C1 as stated: a concrete hosted request where the
token claims verified=true but the stored user has verified=false is not
rejected with 406 — `processJWT` instead performs the write-through
(`markUserAsVerified "u1"`) and proceeds to the next handler. -/
theorem c1_hosted_verification_gate_cex :
    (processJWT true (mkCollab (some userUnverified) (fun _ => none))
        tokenVerified hdrsNone).outcome = .next ∧
    (processJWT true (mkCollab (some userUnverified) (fun _ => none))
        tokenVerified hdrsNone).outcome ≠
      .response 406 "You must verify your email address before using GrowthBook" ∧
    (processJWT true (mkCollab (some userUnverified) (fun _ => none))
        tokenVerified hdrsNone).writes = ["u1"] := by
  refine ⟨by rfl, ?_, by rfl⟩
  intro h
  simpa using h.symm.trans (by rfl : (processJWT true
    (mkCollab (some userUnverified) (fun _ => none)) tokenVerified hdrsNone).outcome = .next)

/-! ### C3: write-through verification update -/

/-- C3 (amended): when the stored user is unverified and the token's
email claim is verified, `processJWT` performs exactly one write-through
verification update (`markUserAsVerified` on that user's id) and is not
rejected by the email-verification gate (no 406 response); with no
organization header the request proceeds to the next handler, but
organization resolution may still reject it (see the counterexample). -/
theorem c3_write_through (isCloud : Bool) {P : Type} (c : Collab P)
    (token : IdToken) (hdrs : Headers) (user : UserInterface)
    (hu : getUserFromJWT c token = .ok (some user))
    (hstored : user.verified = false)
    (htoken : token.email_verified.getD false = true) :
    (processJWT isCloud c token hdrs).writes = [user.id] ∧
    (∀ m, (processJWT isCloud c token hdrs).outcome ≠ .response 406 m) ∧
    (strTruthy hdrs.xOrganization = false →
      (processJWT isCloud c token hdrs).outcome = .next) := by
  refine ⟨?_, ?_, ?_⟩
  · simp [processJWT, initReqState, getInitialDataFromJWT, hu, hstored, htoken]
    repeat' split
    all_goals simp
  · intro m
    simp [processJWT, initReqState, getInitialDataFromJWT, hu, hstored, htoken]
    repeat' split
    all_goals simp
  · intro hO
    simp [processJWT, initReqState, getInitialDataFromJWT, hu, hstored, htoken, hO]

/-- Witness for C3 at a concrete request: unverified stored user,
verified token, no organization header — exactly one write occurs and
the request proceeds. -/
theorem c3_write_through_witness :
    (processJWT true (mkCollab (some userUnverified) (fun _ => none))
        tokenVerified hdrsNone).writes = ["u1"] ∧
    (processJWT true (mkCollab (some userUnverified) (fun _ => none))
        tokenVerified hdrsNone).outcome = .next := by
  have h := c3_write_through true (mkCollab (some userUnverified) (fun _ => none))
    tokenVerified hdrsNone userUnverified (by rfl) rfl rfl
  exact ⟨h.1, h.2.2 rfl⟩

/-- Counterexample to C3 as stated: at a concrete request with an
unverified stored user and a verified token but an organization header
naming a non-existent organization, the write-through still occurs yet
the request is rejected with 404 — it does not proceed. -/
theorem c3_write_through_cex :
    (processJWT true (mkCollab (some userUnverified) (fun _ => none))
        tokenVerified hdrsMissingOrg).writes = ["u1"] ∧
    (processJWT true (mkCollab (some userUnverified) (fun _ => none))
        tokenVerified hdrsMissingOrg).outcome =
      .response 404 "Organization not found" := by
  exact ⟨by rfl, by rfl⟩

/-! ### C6: organization membership check -/

/-- The organization store used by the C6/C7 scenarios: only `org1`
exists, and its member list excludes user `u1`. -/
def orgStore1 : String → Option Organization := fun i =>
  if i = "org1" then some orgExcluding else none

/-- C6 (amended): for a resolved non-admin user and an organization
header naming an existing organization whose member list does not
contain the user's id, `processJWT` responds 403
`"You do not have access to that organization"` with the permission set
still the default (no role or permission computation) — provided the
hosted email-verification gate does not reject the request first (it
fires when hosted, stored user verified, token unverified; see the
counterexample). -/
theorem c6_membership_forbidden (isCloud : Bool) {P : Type} (c : Collab P)
    (token : IdToken) (hdrs : Headers) (user : UserInterface) (s : String)
    (org : Organization)
    (hu : getUserFromJWT c token = .ok (some user))
    (hadmin : user.admin = false)
    (hgate : isCloud = false ∨ user.verified = false ∨
      token.email_verified.getD false = true)
    (hh : hdrs.xOrganization = some s) (hs : s ≠ "")
    (ho : c.getOrganizationById s = some org)
    (hm : org.members.filter (fun m => m.id == user.id) = []) :
    (processJWT isCloud c token hdrs).outcome =
      .response 403 "You do not have access to that organization" ∧
    (processJWT isCloud c token hdrs).state.permissions =
      c.getDefaultPermissions := by
  rcases hgate with hg | hg | hg <;>
    refine ⟨?_, ?_⟩ <;>
      simp [processJWT, initReqState, getInitialDataFromJWT, hu, hg, hh,
        strTruthy, hs, ho, hadmin, hm]

/-- Witness for C6 at a concrete request: non-admin unverified user,
verified token (gate does not fire), organization `org1` exists but
excludes `u1` — 403 with default permissions. -/
theorem c6_membership_forbidden_witness :
    (processJWT true (mkCollab (some userUnverified) orgStore1)
        tokenVerified hdrsOrg1).outcome =
      .response 403 "You do not have access to that organization" ∧
    (processJWT true (mkCollab (some userUnverified) orgStore1)
        tokenVerified hdrsOrg1).state.permissions = 0 :=
  c6_membership_forbidden true (mkCollab (some userUnverified) orgStore1)
    tokenVerified hdrsOrg1 userUnverified "org1" orgExcluding
    (by rfl) rfl (Or.inr (Or.inl rfl)) rfl (by decide) (by rfl) (by rfl)

/-- Counterexample to C6 as stated: a concrete hosted request with a
resolved non-admin user (stored verified, token unverified) and an
organization header naming the existing `org1` that excludes the user is
answered with 406, not 403 — the verification gate preempts the
membership check. -/
theorem c6_membership_forbidden_cex :
    (processJWT true (mkCollab (some userVerified) orgStore1)
        tokenUnverified hdrsOrg1).outcome =
      .response 406 "You must verify your email address before using GrowthBook" ∧
    (processJWT true (mkCollab (some userVerified) orgStore1)
        tokenUnverified hdrsOrg1).outcome ≠
      .response 403 "You do not have access to that organization" := by
  exact ⟨by rfl, by decide⟩

/-! ### C7: organization not found -/

/-- C7 (amended): for a resolved user and an organization header naming
a non-existent organization id, `processJWT` responds 404
`"Organization not found"`, the permission set is still the default (no
role or permission computation) and no organization is installed —
provided the hosted email-verification gate does not reject the request
first (see the counterexample). -/
theorem c7_org_not_found (isCloud : Bool) {P : Type} (c : Collab P)
    (token : IdToken) (hdrs : Headers) (user : UserInterface) (s : String)
    (hu : getUserFromJWT c token = .ok (some user))
    (hgate : isCloud = false ∨ user.verified = false ∨
      token.email_verified.getD false = true)
    (hh : hdrs.xOrganization = some s) (hs : s ≠ "")
    (ho : c.getOrganizationById s = none) :
    (processJWT isCloud c token hdrs).outcome =
      .response 404 "Organization not found" ∧
    (processJWT isCloud c token hdrs).state.permissions =
      c.getDefaultPermissions ∧
    (processJWT isCloud c token hdrs).state.organization = none := by
  rcases hgate with hg | hg | hg <;>
    refine ⟨?_, ?_, ?_⟩ <;>
      simp [processJWT, initReqState, getInitialDataFromJWT, hu, hg, hh,
        strTruthy, hs, ho]

/-- Witness for C7 at a concrete request: resolved unverified user,
verified token, organization header `nope` absent from the store — 404
with default permissions and no organization. -/
theorem c7_org_not_found_witness :
    (processJWT true (mkCollab (some userUnverified) orgStore1)
        tokenVerified hdrsMissingOrg).outcome =
      .response 404 "Organization not found" ∧
    (processJWT true (mkCollab (some userUnverified) orgStore1)
        tokenVerified hdrsMissingOrg).state.permissions = 0 ∧
    (processJWT true (mkCollab (some userUnverified) orgStore1)
        tokenVerified hdrsMissingOrg).state.organization = none :=
  c7_org_not_found true (mkCollab (some userUnverified) orgStore1)
    tokenVerified hdrsMissingOrg userUnverified "nope"
    (by rfl) (Or.inr (Or.inl rfl)) rfl (by decide) (by rfl)

/-- Counterexample to C7 as stated: a concrete hosted request with a
resolved user (stored verified, token unverified) and an organization
header naming the non-existent id `nope` is answered with 406, not
404 — the verification gate preempts organization resolution. -/
theorem c7_org_not_found_cex :
    (processJWT true (mkCollab (some userVerified) orgStore1)
        tokenUnverified hdrsMissingOrg).outcome =
      .response 406 "You must verify your email address before using GrowthBook" ∧
    (processJWT true (mkCollab (some userVerified) orgStore1)
        tokenUnverified hdrsMissingOrg).outcome ≠
      .response 404 "Organization not found" := by
  exact ⟨by rfl, by decide⟩

/-! ### C9: anonymous request proceeds with failing audit capability -/

/-- C9: when the verified token carries a (truthy) email matching no
stored user, `processJWT` proceeds to the next handler with the default
(most restrictive) permission set still installed, and the installed
audit capability is the no-user closure, which fails with
`"No user in request"` whenever invoked. -/
theorem c9_anonymous_proceeds (isCloud : Bool) {P : Type} (c : Collab P)
    (token : IdToken) (hdrs : Headers) (e : String)
    (he : token.email = some e) (hne : e ≠ "")
    (hl : c.getUserByEmail e = none) :
    (processJWT isCloud c token hdrs).outcome = .next ∧
    (processJWT isCloud c token hdrs).state.permissions =
      c.getDefaultPermissions ∧
    (processJWT isCloud c token hdrs).state.audit = some AuditCap.noUser ∧
    ∀ d, runAudit AuditCap.noUser d = .error "No user in request" := by
  refine ⟨?_, ?_, ?_, fun d => rfl⟩ <;>
    simp [processJWT, initReqState, getUserFromJWT, strTruthy, he, hne, hl]

/-- Witness for C9 at a concrete hosted request: email `a@x.com` matches
no stored user — the request proceeds with default permissions and the
no-user audit capability. -/
theorem c9_anonymous_proceeds_witness :
    (processJWT true (mkCollab none orgStore1) tokenVerified hdrsNone).outcome =
      .next ∧
    (processJWT true (mkCollab none orgStore1) tokenVerified
        hdrsNone).state.permissions = 0 ∧
    (processJWT true (mkCollab none orgStore1) tokenVerified
        hdrsNone).state.audit = some AuditCap.noUser ∧
    ∀ d, runAudit AuditCap.noUser d = .error "No user in request" :=
  c9_anonymous_proceeds true (mkCollab none orgStore1) tokenVerified hdrsNone
    "a@x.com" rfl (by decide) (by rfl)

/-! ### C10: organization header ignored for anonymous requests -/

/-- C10: with no resolved user, the organization-selector header is
ignored entirely — for every header value the request proceeds to the
next handler with no organization installed and default permissions, and
the whole result is unchanged under an arbitrary replacement of the
organization store (no organization lookup can influence the result, so
no 404/403 organization response can be produced). -/
theorem c10_anonymous_org_header_ignored (isCloud : Bool) {P : Type}
    (c : Collab P) (token : IdToken) (hdrs : Headers) (e : String)
    (g : String → Option Organization)
    (he : token.email = some e) (hne : e ≠ "")
    (hl : c.getUserByEmail e = none) :
    (processJWT isCloud c token hdrs).outcome = .next ∧
    (processJWT isCloud c token hdrs).state.organization = none ∧
    (processJWT isCloud c token hdrs).state.permissions =
      c.getDefaultPermissions ∧
    processJWT isCloud c token hdrs =
      processJWT isCloud { c with getOrganizationById := g } token hdrs := by
  refine ⟨?_, ?_, ?_, ?_⟩ <;>
    simp [processJWT, initReqState, getUserFromJWT, strTruthy, he, hne, hl]

/-- Witness for C10 at a concrete request whose header names an existing
organization while no user resolves: the request still proceeds with no
organization and default permissions, and emptying the organization
store changes nothing. -/
theorem c10_anonymous_org_header_ignored_witness :
    (processJWT true (mkCollab none orgStore1) tokenVerified hdrsOrg1).outcome =
      .next ∧
    (processJWT true (mkCollab none orgStore1) tokenVerified
        hdrsOrg1).state.organization = none ∧
    (processJWT true (mkCollab none orgStore1) tokenVerified
        hdrsOrg1).state.permissions = 0 ∧
    processJWT true (mkCollab none orgStore1) tokenVerified hdrsOrg1 =
      processJWT true
        { mkCollab none orgStore1 with getOrganizationById := fun _ => none }
        tokenVerified hdrsOrg1 :=
  c10_anonymous_org_header_ignored true (mkCollab none orgStore1) tokenVerified
    hdrsOrg1 "a@x.com" (fun _ => none) rfl (by decide) (by rfl)

end GrowthBookAuth
